import Mathlib

/-!
Verification development for the OpenExtract template-driven PDF data
extraction library.  The definitions below are a shallow embedding of the
Python sources `src/openextract/utils.py`, `src/openextract/extractor.py`
and `src/openextract/template_loader.py`.  Python strings are Lean
`String`/`List Char` (character classes are modelled over ASCII; the
sources only ever feed ASCII form text through these paths), Python
`None`-or-value results are `Option`, Python dictionaries are association
lists with distinct keys, and Python floats are modelled exactly by the
type `PyFloat` below (finite values kept as exact rationals; every
comparison performed by the claims is at magnitudes far below 2^53, where
double rounding cannot change an order comparison).
-/

namespace OpenExtract

/-- Python `\s` / `str.strip` whitespace, ASCII range. -/
def isPyWs (c : Char) : Bool :=
  c = ' ' ∨ c = '\t' ∨ c = '\n' ∨ c = '\r' ∨ c = '\x0b' ∨ c = '\x0c'

/-- Strip leading and trailing whitespace (Python `str.strip`). -/
def pyStrip (cs : List Char) : List Char :=
  ((cs.dropWhile isPyWs).reverse.dropWhile isPyWs).reverse

/-- Digit list to natural number, most significant first. -/
def digitsToNat (cs : List Char) : Nat :=
  cs.foldl (fun a c => 10 * a + (c.toNat - '0'.toNat)) 0

/--
Model of a CPython `float`: a finite value (kept as an exact rational —
rounding to the nearest double is not modelled, see the header comment),
positive or negative infinity, or NaN.
-/
inductive PyFloat where
  | finite (q : ℚ)
  | inf
  | negInf
  | nan
deriving DecidableEq, Repr

/-- Double overflow threshold: magnitudes at or beyond 2^1024 overflow to
infinity in `float(str)` (the true boundary is within a rounding step of
this; no input in this development is anywhere near it). -/
def pyFloatOverflowNat : Nat := 179769313486231590772930519078902473361797697894230657273430081157732675805500963132708477322407536021120113879871393357658789768814416622492847430639474124377767893424865485276302219601246094119453082952085005768838150682342462881473913110540827237163350510684586298239947245938479716304835356329624224137216

/-- Build the value of a parsed float literal: `sign * mantissa * 10^(exp)`,
overflowing to an infinity past the threshold (2^1024, written out as a
literal so that the kernel can evaluate comparisons against it).
Underflow to 0.0 of tiny magnitudes is not modelled (kept exact); no
claim involves it. -/
def pyFloatOfParts (sign : Int) (mantissa : Nat) (ex : Int) : PyFloat :=
  if mantissa = 0 then .finite 0
  else
    let v : ℚ :=
      if 0 ≤ ex then mkRat (sign * (mantissa * 10 ^ ex.toNat : Nat)) 1
      else mkRat (sign * (mantissa : Int)) (10 ^ (-ex).toNat)
    if v ≥ mkRat (pyFloatOverflowNat : Int) 1 then .inf
    else if v ≤ mkRat (-(pyFloatOverflowNat : Int)) 1 then .negInf
    else .finite v

/-- Optional single leading sign (Python float literals allow one). -/
def splitSign : List Char → Int × List Char
  | '+' :: r => (1, r)
  | '-' :: r => (-1, r)
  | cs => (1, cs)

/-- Exponent part of a float literal: empty, or `e`/`E`, optional sign,
one or more digits, end of string.  Returns the exponent value. -/
def parseExpPart (cs : List Char) : Option Int :=
  match cs with
  | [] => some 0
  | e :: rest =>
    if e = 'e' ∨ e = 'E' then
      let (esign, r1) := splitSign rest
      let (ds, r2) := r1.span Char.isDigit
      if ds ≠ [] ∧ r2 = [] then some (esign * (digitsToNat ds : Int)) else none
    else none

/--
Model of the CPython builtin `float(str)` on a character list: strip
whitespace, optional sign, then either the case-insensitive literals
`inf`/`infinity`/`nan` or a decimal literal `digits[.digits][(e|E)exp]`
with at least one digit.  (Pythonic digit-group underscores are not
modelled; no input in the repository contains them.)  `none` is a raised
`ValueError`.
-/
def pyParseFloatL (cs0 : List Char) : Option PyFloat :=
  let cs := pyStrip cs0
  let (sign, rest) := splitSign cs
  let low := rest.map Char.toLower
  if low = "inf".data ∨ low = "infinity".data then
    some (if sign < 0 then .negInf else .inf)
  else if low = "nan".data then some .nan
  else
    let (ip, r1) := rest.span Char.isDigit
    let (fp, r2) :=
      match r1 with
      | '.' :: t => t.span Char.isDigit
      | _ => ([], r1)
    if ip = [] ∧ fp = [] then none
    else
      match parseExpPart r2 with
      | some ex => some (pyFloatOfParts sign (digitsToNat (ip ++ fp)) (ex - (fp.length : Int)))
      | none => none

/-- `float(str)` on a Lean string. -/
def pyParseFloat (s : String) : Option PyFloat :=
  pyParseFloatL s.data

/-- Truncation toward zero, the behaviour of Python `int(float)` on a
finite float. -/
def ratTrunc (q : ℚ) : Int := q.num.tdiv (q.den : Int)

/-- The single Python exception class this development needs to track:
`OverflowError`, raised by `int(float('inf'))` and not caught by the
`except (ValueError, TypeError)` handlers in `utils.py`. -/
inductive PyExn where
  | overflowError
deriving DecidableEq, Repr

instance {ε α : Type} [DecidableEq ε] [DecidableEq α] :
    DecidableEq (Except ε α) := fun a b =>
  match a, b with
  | .ok x, .ok y =>
    if h : x = y then .isTrue (by rw [h]) else .isFalse (by simp [h])
  | .error x, .error y =>
    if h : x = y then .isTrue (by rw [h]) else .isFalse (by simp [h])
  | .ok _, .error _ => .isFalse (by simp)
  | .error _, .ok _ => .isFalse (by simp)

/--
`utils.clean_text`: collapse every whitespace run to a single space and
strip the ends (`re.sub(r'\s+', ' ', text).strip()`); the empty string is
returned unchanged.
-/
def collapseWsStep (c : Char) (acc : List Char) : List Char :=
  if isPyWs c then
    match acc with
    | ' ' :: _ => acc
    | _ => ' ' :: acc
  else c :: acc

def clean_text (s : String) : String :=
  if s = "" then ""
  else
    let collapsed := s.data.foldr collapseWsStep []
    ⟨((collapsed.dropWhile (· = ' ')).reverse.dropWhile (· = ' ')).reverse⟩

/--
`utils.parse_currency`: drop currency symbols, commas and whitespace,
turn a fully parenthesised value into a negated one, and apply `float`;
`None` on a parse failure.  (Python returns whatever `float` produces,
so an `inf`/`nan` text yields that non-finite float, not `None`.)
-/
def currencySym (c : Char) : Bool :=
  c = '$' ∨ c = '£' ∨ c = '€' ∨ c = '¥' ∨ c = ',' ∨ isPyWs c

def parse_currency (value : String) : Option PyFloat :=
  if value = "" then none
  else
    let cleaned := value.data.filter (fun c => ¬ currencySym c)
    let cleaned2 :=
      match cleaned with
      | '(' :: rest =>
        if rest.getLast? = some ')' then '-' :: rest.dropLast else cleaned
      | _ => cleaned
    pyParseFloatL cleaned2

/--
`utils.parse_integer`: drop commas and whitespace, then `int(float(x))`.
The `except (ValueError, TypeError)` handler maps a float parse failure
and the NaN conversion error to `None`, but `int()` of an infinity raises
`OverflowError`, which escapes the handler — hence the `Except` result.
-/
def parse_integer (value : String) : Except PyExn (Option Int) :=
  if value = "" then .ok none
  else
    let cleaned := value.data.filter (fun c => ¬ (c = ',' ∨ isPyWs c))
    match pyParseFloatL cleaned with
    | none => .ok none            -- ValueError from float(), caught
    | some (.finite q) => .ok (some (ratTrunc q))
    | some .nan => .ok none       -- ValueError from int(nan), caught
    | some .inf => .error .overflowError
    | some .negInf => .error .overflowError

/-- `utils.parse_percentage`: drop percent signs and whitespace, `float`. -/
def parse_percentage (value : String) : Option PyFloat :=
  if value = "" then none
  else pyParseFloatL (value.data.filter (fun c => ¬ (c = '%' ∨ isPyWs c)))

/-- First `some` produced by `f` along a list (Python for-loop with an
early `return`). -/
def firstSome (f : α → Option β) : List α → Option β
  | [] => none
  | x :: r =>
    match f x with
    | some b => some b
    | none => firstSome f r

/-! ### strptime model

`datetime.strptime` compiles each directive to a regular expression and
requires the whole input to be consumed; the produced fields are then
validated by the `datetime` constructor.  The component parsers below
mirror the directive regexes used by CPython `_strptime`:
`%m ~ 1[0-2]|0[1-9]|[1-9]`, `%d ~ 3[01]|[12]\d|0[1-9]|[1-9]`,
`%Y ~ \d{4}`, `%y ~ \d\d` (0-68 mapping to 2000s, 69-99 to 1900s),
`%B`/`%b` case-insensitive month names, and each whitespace run in the
format matching one-or-more input whitespace characters.  The directive
alternations are deterministic here because a two-digit reading and a
one-digit reading of the same input differ on whether the second
character is a digit, which no following literal separator can be. -/

def digitVal (c : Char) : Nat := c.toNat - '0'.toNat

def pMonthNum : List Char → Option (Nat × List Char)
  | c1 :: c2 :: rest =>
    if c1 = '1' ∧ ('0' ≤ c2 ∧ c2 ≤ '2') then some (10 + digitVal c2, rest)
    else if c1 = '0' ∧ ('1' ≤ c2 ∧ c2 ≤ '9') then some (digitVal c2, rest)
    else if '1' ≤ c1 ∧ c1 ≤ '9' then some (digitVal c1, c2 :: rest)
    else none
  | [c1] => if '1' ≤ c1 ∧ c1 ≤ '9' then some (digitVal c1, []) else none
  | [] => none

def pDayNum : List Char → Option (Nat × List Char)
  | c1 :: c2 :: rest =>
    if c1 = '3' ∧ (c2 = '0' ∨ c2 = '1') then some (30 + digitVal c2, rest)
    else if (c1 = '1' ∨ c1 = '2') ∧ c2.isDigit then
      some (10 * digitVal c1 + digitVal c2, rest)
    else if c1 = '0' ∧ ('1' ≤ c2 ∧ c2 ≤ '9') then some (digitVal c2, rest)
    else if '1' ≤ c1 ∧ c1 ≤ '9' then some (digitVal c1, c2 :: rest)
    else none
  | [c1] => if '1' ≤ c1 ∧ c1 ≤ '9' then some (digitVal c1, []) else none
  | [] => none

def pYear4 : List Char → Option (Nat × List Char)
  | a :: b :: c :: d :: rest =>
    if a.isDigit ∧ b.isDigit ∧ c.isDigit ∧ d.isDigit then
      some (digitsToNat [a, b, c, d], rest)
    else none
  | _ => none

/-- `%y`: exactly two digits, CPython century rule (00-68 → 2000s). -/
def pYear2 : List Char → Option (Nat × List Char)
  | a :: b :: rest =>
    if a.isDigit ∧ b.isDigit then
      let v := digitsToNat [a, b]
      some (if v ≤ 68 then 2000 + v else 1900 + v, rest)
    else none
  | _ => none

def pLit (ch : Char) : List Char → Option (List Char)
  | c :: r => if c = ch then some r else none
  | [] => none

/-- One-or-more whitespace characters (a whitespace run in the format). -/
def pWs1 : List Char → Option (List Char)
  | c :: r => if isPyWs c then some (r.dropWhile isPyWs) else none
  | [] => none

def monthsFull : List (List Char × Nat) :=
  [("january".data, 1), ("february".data, 2), ("march".data, 3),
   ("april".data, 4), ("may".data, 5), ("june".data, 6), ("july".data, 7),
   ("august".data, 8), ("september".data, 9), ("october".data, 10),
   ("november".data, 11), ("december".data, 12)]

def monthsAbbr : List (List Char × Nat) :=
  [("jan".data, 1), ("feb".data, 2), ("mar".data, 3), ("apr".data, 4),
   ("may".data, 5), ("jun".data, 6), ("jul".data, 7), ("aug".data, 8),
   ("sep".data, 9), ("oct".data, 10), ("nov".data, 11), ("dec".data, 12)]

/-- Case-insensitive month-name alternation (`%B` / `%b`). -/
def pMonthName (tbl : List (List Char × Nat)) (cs : List Char) :
    Option (Nat × List Char) :=
  firstSome
    (fun nv =>
      if (cs.take nv.1.length).map Char.toLower = nv.1 then
        some (nv.2, cs.drop nv.1.length)
      else none)
    tbl

def isLeap (y : Nat) : Bool := y % 4 = 0 ∧ (y % 100 ≠ 0 ∨ y % 400 = 0)

def daysInMonth (y m : Nat) : Nat :=
  if m = 2 then (if isLeap y then 29 else 28)
  else if m = 4 ∨ m = 6 ∨ m = 9 ∨ m = 11 then 30
  else 31

/-- The `datetime(y, m, d)` constructor check (`MINYEAR = 1`; month and
day lower bounds are already guaranteed by the directive parsers). -/
def mkDate (y m d : Nat) : Option (Nat × Nat × Nat) :=
  if 1 ≤ y ∧ d ≤ daysInMonth y m then some (y, m, d) else none

def runMDY (sep : Char) (year2 : Bool) (cs : List Char) :
    Option (Nat × Nat × Nat) := do
  let (m, r1) ← pMonthNum cs
  let r2 ← pLit sep r1
  let (d, r3) ← pDayNum r2
  let r4 ← pLit sep r3
  let (y, r5) ← if year2 then pYear2 r4 else pYear4 r4
  guard (r5 = [])
  mkDate y m d

def runYMD (sep : Char) (cs : List Char) : Option (Nat × Nat × Nat) := do
  let (y, r1) ← pYear4 cs
  let r2 ← pLit sep r1
  let (m, r3) ← pMonthNum r2
  let r4 ← pLit sep r3
  let (d, r5) ← pDayNum r4
  guard (r5 = [])
  mkDate y m d

def runDMY (sep : Char) (cs : List Char) : Option (Nat × Nat × Nat) := do
  let (d, r1) ← pDayNum cs
  let r2 ← pLit sep r1
  let (m, r3) ← pMonthNum r2
  let r4 ← pLit sep r3
  let (y, r5) ← pYear4 r4
  guard (r5 = [])
  mkDate y m d

/-- `%B %d, %Y` / `%b %d, %Y`. -/
def runBdY (tbl : List (List Char × Nat)) (cs : List Char) :
    Option (Nat × Nat × Nat) := do
  let (m, r1) ← pMonthName tbl cs
  let r2 ← pWs1 r1
  let (d, r3) ← pDayNum r2
  let r4 ← pLit ',' r3
  let r5 ← pWs1 r4
  let (y, r6) ← pYear4 r5
  guard (r6 = [])
  mkDate y m d

/-- `%d %B %Y` / `%d %b %Y`. -/
def runDBY (tbl : List (List Char × Nat)) (cs : List Char) :
    Option (Nat × Nat × Nat) := do
  let (d, r1) ← pDayNum cs
  let r2 ← pWs1 r1
  let (m, r3) ← pMonthName tbl r2
  let r4 ← pWs1 r3
  let (y, r5) ← pYear4 r4
  guard (r5 = [])
  mkDate y m d

def pad2 (n : Nat) : String := if n < 10 then "0" ++ toString n else toString n

def pad4 (n : Nat) : String :=
  if n < 10 then "000" ++ toString n
  else if n < 100 then "00" ++ toString n
  else if n < 1000 then "0" ++ toString n
  else toString n

/-- `dt.strftime('%Y-%m-%d')`. -/
def isoOfDate (y m d : Nat) : String := pad4 y ++ "-" ++ pad2 m ++ "-" ++ pad2 d

/-- The default input format list of `utils.parse_date`, in source order. -/
def dateInputFormats : List (List Char → Option (Nat × Nat × Nat)) :=
  [runMDY '/' false, runMDY '-' false, runMDY '/' true, runMDY '-' true,
   runYMD '-', runYMD '/', runDMY '/', runDMY '-',
   runBdY monthsFull, runBdY monthsAbbr, runDBY monthsFull, runDBY monthsAbbr]

/--
`utils.parse_date` with its default format list: strip the input, try each
format in order, and render the first hit as an ISO `YYYY-MM-DD` string;
`None` if no format matches.
-/
def parse_date (value : String) : Option String :=
  if value = "" then none
  else
    let cleaned := pyStrip value.data
    match firstSome (fun f => f cleaned) dateInputFormats with
    | some (y, m, d) => some (isoOfDate y m d)
    | none => none

/-- The named output layouts of `utils.format_date`. -/
inductive DateFmt where
  | iso | mdySlash | dmySlash | ymdSlash | mdyDash | dmyDash
deriving DecidableEq, Repr

/-- `format_map.get(output_format, '%Y-%m-%d')`: unknown names fall back
to the ISO layout. -/
def formatMapLookup (s : String) : DateFmt :=
  if s = "YYYY-MM-DD" then .iso
  else if s = "MM/DD/YYYY" then .mdySlash
  else if s = "DD/MM/YYYY" then .dmySlash
  else if s = "YYYY/MM/DD" then .ymdSlash
  else if s = "MM-DD-YYYY" then .mdyDash
  else if s = "DD-MM-YYYY" then .dmyDash
  else .iso

def renderDate : DateFmt → Nat → Nat → Nat → String
  | .iso, y, m, d => pad4 y ++ "-" ++ pad2 m ++ "-" ++ pad2 d
  | .mdySlash, y, m, d => pad2 m ++ "/" ++ pad2 d ++ "/" ++ pad4 y
  | .dmySlash, y, m, d => pad2 d ++ "/" ++ pad2 m ++ "/" ++ pad4 y
  | .ymdSlash, y, m, d => pad4 y ++ "/" ++ pad2 m ++ "/" ++ pad2 d
  | .mdyDash, y, m, d => pad2 m ++ "-" ++ pad2 d ++ "-" ++ pad4 y
  | .dmyDash, y, m, d => pad2 d ++ "-" ++ pad2 m ++ "-" ++ pad4 y

/--
`utils.format_date`: an empty input is `None`; an input that parses under
`%Y-%m-%d` is rendered in the requested layout; a `ValueError` from
`strptime` is caught and the input string is returned unchanged.
-/
def format_date (date_str : String) (output_format : String) : Option String :=
  if date_str = "" then none
  else
    match runYMD '-' date_str.data with
    | some (y, m, d) => some (renderDate (formatMapLookup output_format) y m d)
    | none => some date_str

/-- An extracted field value: Python `str`, `int`, `float` or `bool`. -/
inductive Val where
  | s (x : String)
  | i (n : Int)
  | f (x : PyFloat)
  | b (x : Bool)
deriving DecidableEq, Repr

def pyLower (s : String) : String := ⟨s.data.map Char.toLower⟩

/--
`utils.coerce_value`: dispatch on the declared `data_type`.  The result is
an `Except` because the `integer` branch can let an `OverflowError`
escape (see `parse_integer`); every other branch always returns `ok`.
-/
def coerce_value (value : Option String) (data_type : String) :
    Except PyExn (Option Val) :=
  match value with
  | none => .ok none
  | some v =>
    if data_type = "string" then .ok (some (.s (clean_text v)))
    else if data_type = "integer" then
      match parse_integer v with
      | .ok o => .ok (o.map Val.i)
      | .error e => .error e
    else if data_type = "currency" then .ok ((parse_currency v).map Val.f)
    else if data_type = "decimal" then .ok ((parse_currency v).map Val.f)
    else if data_type = "percentage" then .ok ((parse_percentage v).map Val.f)
    else if data_type = "date" then .ok ((parse_date v).map Val.s)
    else if data_type = "boolean" then
      .ok (some (.b (["true", "yes", "1", "x", "checked"].contains (pyLower v))))
    else .ok (some (.s (clean_text v)))

/-! ### Python dictionaries

Python dictionaries with string keys are modelled as association lists
whose keys are pairwise distinct (an invariant of every real `dict`; the
theorems that need it take it as a hypothesis).  `List.lookup` is key
lookup, `dictUpdate` is `d[k] = v` (replace in place, or append a new
binding). -/

def dictUpdate (d : List (String × α)) (k : String) (v : α) :
    List (String × α) :=
  match d with
  | [] => [(k, v)]
  | (k', v') :: rest =>
    if k' = k then (k', v) :: rest else (k', v') :: dictUpdate rest k v

/--
The merge loop of `Extractor.extract` for DOL forms
(`extractor.py` lines 207-211):

    extracted_data = text_data.copy()
    for key, value in dol_data.items():
        if value is not None:
            extracted_data[key] = value

Values are `Option Val` because both passes store Python `None` for
fields they could not decode.
-/
def mergeDOL (text_data dol_data : List (String × Option Val)) :
    List (String × Option Val) :=
  dol_data.foldl
    (fun acc kv =>
      match kv.2 with
      | some v => dictUpdate acc kv.1 (some v)
      | none => acc)
    text_data

/-! ### The DOL financial placeholder decoder
(`Extractor._decode_dol_financial_value`) -/

/-- The window test `lo <= value <= hi` on a Python float: false for
infinities and NaN, the rational comparison for finite values. -/
def inWindow (lo hi : ℚ) : PyFloat → Bool
  | .finite q => lo ≤ q ∧ q ≤ hi
  | _ => false

/-- One `value_len` attempt: slice, `float`, keep the first value inside
the plausibility window (`ValueError` and out-of-window both continue). -/
def tryValueLen (rem : List Char) (lo hi : ℚ) (valueLen : Nat) :
    Option PyFloat :=
  if valueLen ≤ rem.length then
    match pyParseFloatL (rem.take valueLen) with
    | some f => if inWindow lo hi f then some f else none
    | none => none
  else none

/-- One standard marker attempt: strip the marker when present and try
the preferred value lengths on a long-enough remainder. -/
def tryMarker (clean mk : List Char) : Option PyFloat :=
  if mk.isPrefixOf clean then
    if clean.drop mk.length ≠ [] ∧ 5 ≤ (clean.drop mk.length).length then
      firstSome (tryValueLen (clean.drop mk.length) 100 500000000)
        [8, 9, 7, 6, 10]
    else none
  else none

/-- Strategy 1: the standard placeholder markers, longest first. -/
def decodeStdMarker (clean : List Char) : Option PyFloat :=
  firstSome (tryMarker clean)
    ["123456789".data, "12345678".data, "1234567".data]

/-- One (start, len) attempt of the sliding-window strategy. -/
def trySlice (clean : List Char) (startPos valueLen : Nat) : Option PyFloat :=
  if startPos + valueLen ≤ clean.length then
    match pyParseFloatL ((clean.drop startPos).take valueLen) with
    | some f => if inWindow 10000 500000000 f then some f else none
    | none => none
  else none

/-- Strategy 2: sliding-window search over tokens that still carry the
generic `1234` marker (`range(4, 12)` start offsets). -/
def decodeSlidingWindow (clean : List Char) : Option PyFloat :=
  if "1234".data.isPrefixOf clean ∧ 15 ≤ clean.length then
    firstSome
      (fun sp => firstSome (fun vl => trySlice clean sp vl) [8, 9, 7, 6])
      [4, 5, 6, 7, 8, 9, 10, 11]
  else none

/-- Strategy 3: direct `float` of the comma-stripped token. -/
def decodeDirect (clean : List Char) : Option PyFloat :=
  match pyParseFloatL (clean.filter (· ≠ ',')) with
  | some f => if inWindow 100 500000000 f then some f else none
  | none => none

/--
`Extractor._decode_dol_financial_value`: strip leading minus signs, then
try the standard-marker strategy, the sliding-window strategy and the
direct parse in that order; `None` when every strategy misses.
-/
def decodeStrategies (clean : List Char) : Option PyFloat :=
  match decodeStdMarker clean with
  | some v => some v
  | none =>
    match decodeSlidingWindow clean with
    | some v => some v
    | none => decodeDirect clean

def decode_dol_financial_value (text : String) : Option PyFloat :=
  if text = "" then none
  else decodeStrategies (text.data.dropWhile (· = '-'))

/-! ### The DOL plan-year regex
(`Extractor._extract_dol_form_data`, lines 324-330) -/

/-- Exactly `\d{2}/\d{2}/\d{4}` at the head of the input; returns the
matched ten characters and the rest. -/
def pSlashDate : List Char → Option (List Char × List Char)
  | a :: b :: s1 :: c :: d :: s2 :: e :: f :: g :: h :: rest =>
    if a.isDigit ∧ b.isDigit ∧ s1 = '/' ∧ c.isDigit ∧ d.isDigit ∧ s2 = '/' ∧
        e.isDigit ∧ f.isDigit ∧ g.isDigit ∧ h.isDigit then
      some ([a, b, s1, c, d, s2, e, f, g, h], rest)
    else none
  | _ => none

/-- Literal word match at the head of the input. -/
def pWord (w : List Char) (cs : List Char) : Option (List Char) :=
  if w.isPrefixOf cs then some (cs.drop w.length) else none

/-- The pattern
`beginning\s+(\d{2}/\d{2}/\d{4})\s+and\s+ending\s+(\d{2}/\d{2}/\d{4})`
anchored at the head of the input (each `\s+` is maximal-munch, which is
exact here because every token that follows a `\s+` starts with a
non-whitespace character). -/
def matchPlanYearAt (cs : List Char) : Option (List Char × List Char) := do
  let r1 ← pWord "beginning".data cs
  let r2 ← pWs1 r1
  let (d1, r3) ← pSlashDate r2
  let r4 ← pWs1 r3
  let r5 ← pWord "and".data r4
  let r6 ← pWs1 r5
  let r7 ← pWord "ending".data r6
  let r8 ← pWs1 r7
  let (d2, _) ← pSlashDate r8
  pure (d1, d2)

/-- `re.search` of the plan-year pattern: first match scanning left to
right. -/
def searchPlanYear : List Char → Option (List Char × List Char)
  | [] => none
  | c :: rest =>
    match matchPlanYearAt (c :: rest) with
    | some r => some r
    | none => searchPlanYear rest

/--
The plan-year portion of `Extractor._extract_dol_form_data`: on a match,
the two captured groups are stored verbatim under `plan_year_begin` and
`plan_year_end` (no reformatting of any kind happens to them).
-/
def dolPlanYearEntries (full_text : String) : List (String × Option Val) :=
  match searchPlanYear full_text.data with
  | some (d1, d2) =>
    [("plan_year_begin", some (.s ⟨d1⟩)), ("plan_year_end", some (.s ⟨d2⟩))]
  | none => []

/-! ### Pattern-based field extraction
(`utils.extract_first_match`, `Extractor._extract_with_regex`)

The generic regular-expression engine (`re.search` with
`IGNORECASE | MULTILINE`) is an external collaborator; it is abstracted
as a function from a pattern and a text to an optional match, a match
being its list of captured groups (a group that did not participate is
`none`).  A pattern that raises `re.error` is modelled by the same `none`
as a failed search, which is exactly how `extract_first_match` treats
it. -/

def ReSearchFn : Type := String → String → Option (List (Option String))

/--
`utils.extract_first_match` for the default `group = 1`: empty text or
pattern give `None`; otherwise the first captured group of the first
match, or `None` when the engine finds no match, the pattern has no
groups, or the group did not participate.
-/
def extract_first_match (search : ReSearchFn) (text pat : String) :
    Option String :=
  if text = "" ∨ pat = "" then none
  else
    match search pat text with
    | some groups => (groups.get? 0).join
    | none => none

/-- The field-definition slice consumed by `_extract_with_regex`. -/
structure RegexField where
  regex_pattern : Option String
  fallback_patterns : List String
  default_value : Option String
deriving DecidableEq, Repr

/-- The pattern loop of `_extract_with_regex`: skip absent or empty
patterns, return the first cleaned non-empty hit. -/
def tryPatterns (search : ReSearchFn) (text : String) :
    List (Option String) → Option String
  | [] => none
  | none :: rest => tryPatterns search text rest
  | some p :: rest =>
    if p = "" then tryPatterns search text rest
    else
      match extract_first_match search text p with
      | some v => if v ≠ "" then some (clean_text v) else tryPatterns search text rest
      | none => tryPatterns search text rest

/--
`Extractor._extract_with_regex`: primary pattern first, then the fallback
patterns in declared order; the field default when everything misses.
-/
def extract_with_regex (search : ReSearchFn) (field : RegexField)
    (text : String) : Option String :=
  match tryPatterns search text (field.regex_pattern :: field.fallback_patterns.map some) with
  | some v => some v
  | none => field.default_value

/-! ### Vertical (line-code) output
(`Extractor._format_output`, `include_line_codes = True` arm; claims touch
only this arm, so the horizontal arm is not modelled) -/

/-- Python truthiness of an extracted value. -/
def pyTruthyVal : Val → Bool
  | .s x => x ≠ ""
  | .i n => n ≠ 0
  | .f (.finite q) => q ≠ 0
  | .f _ => true
  | .b b => b

/-- `isinstance(value, (int, float))` (a Python `bool` is an `int`),
with the numeric content. -/
def valNum? : Val → Option PyFloat
  | .i n => some (.finite (mkRat n 1))
  | .f x => some x
  | .b bv => some (.finite (mkRat (if bv then 1 else 0) 1))
  | .s _ => none

/-- Round half to even, the rounding of Python `format(x, '.0f')`,
computed on the exact numerator and denominator. -/
def roundHalfEven (q : ℚ) : Int :=
  let n := q.num
  let d := (q.den : Int)
  let fl := n.fdiv d
  let rem := n - fl * d
  if 2 * rem < d then fl
  else if 2 * rem > d then fl + 1
  else if fl % 2 = 0 then fl else fl + 1

/-- Digit grouping on a reversed digit list: a comma before every third
digit. -/
def commaRev : List Char → Nat → List Char
  | [], _ => []
  | c :: cs, n =>
    (if n ≠ 0 ∧ n % 3 = 0 then [',', c] else [c]) ++ commaRev cs (n + 1)

/-- Python `f"{q:,.0f}"` for a finite float: half-even rounding to an
integer, thousands separators, and a sign that survives a negative value
rounding to zero (`-0`). -/
def pyFmtComma0fQ (q : ℚ) : String :=
  let r := roundHalfEven q
  let grouped := (commaRev r.natAbs.repr.data.reverse 0).reverse
  (if r < 0 ∨ (r = 0 ∧ q < 0) then "-" else "") ++ ⟨grouped⟩

/-- Python `f"{v:,.0f}"` on any float. -/
def pyFmtComma0f : PyFloat → String
  | .finite q => pyFmtComma0fQ q
  | .inf => "inf"
  | .negInf => "-inf"
  | .nan => "nan"

/-- The field-definition slice consumed by the vertical formatter. -/
structure OutFieldDef where
  field_name : String
  display_name : Option String
  data_type : Option String
  line_code : Option String
deriving DecidableEq, Repr

/-- One row of the vertical layout. -/
structure OutRow where
  line_code : String
  field_name : String
  display_name : String
  value : Val
deriving DecidableEq, Repr

/--
The per-field body of the vertical-format loop: look the field up in the
record (`data.get(field_name)`, which conflates a missing key and a
stored `None`), reformat a truthy date-typed value, render a numeric
currency-typed value as `f"${value:,.0f}"`, and fall back to the empty
string for `None`.  (A truthy non-string value under a date-typed field
would raise `TypeError` inside `format_date` in Python; records built by
`coerce_value` never hold one, and it is modelled as the identity here.)
-/
def mkRow (data : List (String × Option Val)) (dateFmt : String)
    (f : OutFieldDef) : OutRow :=
  let v0 : Option Val := (data.lookup f.field_name).join
  let v1 : Option Val :=
    match v0 with
    | some v =>
      if pyTruthyVal v ∧ f.data_type = some "date" then
        match v with
        | .s str => some (.s ((format_date str dateFmt).getD str))
        | other => some other
      else some v
    | none => none
  let v2 : Option Val :=
    match v1 with
    | some v =>
      if f.data_type = some "currency" then
        match valNum? v with
        | some x => some (.s ("$" ++ pyFmtComma0f x))
        | none => some v
      else some v
    | none => none
  { line_code := f.line_code.getD "-",
    field_name := f.field_name,
    display_name := f.display_name.getD f.field_name,
    value := v2.getD (.s "") }

/-- The `include_line_codes` arm of `Extractor._format_output`: one row
appended per template field, in template order. -/
def formatOutputVertical (data : List (String × Option Val))
    (fields : List OutFieldDef) (dateFmt : String) : List OutRow :=
  fields.map (mkRow data dateFmt)

/-! ### Template validation
(`TemplateLoader.validate_template` / `_validate_field`)

Templates are arbitrary JSON objects in Python; the model keeps exactly
the entries the validator consults, each as an `Option` (absent = the
key is not in the dictionary).  For entries whose content the validator
never reads (`display_name`, `required`, `regex_pattern`, `coordinates`)
only presence is kept. -/

structure TField where
  field_name : Option String
  display_name_present : Bool
  data_type : Option String
  required_present : Bool
  extraction_method : Option String
  regex_pattern_present : Bool
  coordinates_present : Bool
deriving DecidableEq, Repr

/-- `template['fields']`, when present: a JSON array or some other
value (the validator only tests `isinstance(fields, list)`). -/
inductive FieldsVal where
  | arr (fs : List TField)
  | nonArray
deriving DecidableEq, Repr

structure OutFmtVal where
  csv_headers_present : Bool
deriving DecidableEq, Repr

structure PyTemplate where
  template_id : Option String
  template_name : Option String
  description : Option String
  document_type : Option String
  version : Option String
  fields : Option FieldsVal
  output_format : Option OutFmtVal
deriving DecidableEq, Repr

/-- Python `str.isalnum` (ASCII model): non-empty and every character
alphanumeric. -/
def pyIsAlnum (cs : List Char) : Bool :=
  cs ≠ [] ∧ cs.all Char.isAlphanum

def charsetErrMsg : String :=
  "template_id must contain only lowercase letters, numbers, and hyphens"

def versionErrMsg : String := "version must be in semantic format (e.g., 1.0.0)"

def mkFieldErr (i : Nat) (msg : String) : String :=
  "Field " ++ (toString i ++ (": " ++ msg))

def validTypes : List String :=
  ["string", "integer", "currency", "date", "boolean", "decimal", "percentage"]

def validMethods : List String := ["regex", "coordinates", "table", "keyword_proximity"]

/-- `TemplateLoader._validate_field`. -/
def validate_field (f : TField) (i : Nat) : List String :=
  (if f.field_name.isNone then
      [mkFieldErr i "Missing required property 'field_name'"] else []) ++
  (if ¬ f.display_name_present then
      [mkFieldErr i "Missing required property 'display_name'"] else []) ++
  (if f.data_type.isNone then
      [mkFieldErr i "Missing required property 'data_type'"] else []) ++
  (if ¬ f.required_present then
      [mkFieldErr i "Missing required property 'required'"] else []) ++
  (if f.extraction_method.isNone then
      [mkFieldErr i "Missing required property 'extraction_method'"] else []) ++
  (let fn := f.field_name.getD ""
   if fn ≠ "" ∧ ¬ pyIsAlnum (fn.data.filter (· ≠ '_')) then
      [mkFieldErr i "field_name must be snake_case"] else []) ++
  (let dt := f.data_type.getD ""
   if dt ≠ "" ∧ ¬ validTypes.contains dt then
      [mkFieldErr i ("Invalid data_type '" ++ (dt ++ "'"))] else []) ++
  (let mth := f.extraction_method.getD ""
   if mth ≠ "" ∧ ¬ validMethods.contains mth then
      [mkFieldErr i ("Invalid extraction_method '" ++ (mth ++ "'"))] else []) ++
  (if f.extraction_method.getD "" = "regex" ∧ ¬ f.regex_pattern_present then
      [mkFieldErr i "regex extraction_method requires regex_pattern"] else []) ++
  (if f.extraction_method.getD "" = "coordinates" ∧ ¬ f.coordinates_present then
      [mkFieldErr i "coordinates extraction_method requires coordinates object"]
   else [])

def missingTopErrors (t : PyTemplate) : List String :=
  (if t.template_id.isNone then ["Missing required field: template_id"] else []) ++
  (if t.template_name.isNone then ["Missing required field: template_name"] else []) ++
  (if t.description.isNone then ["Missing required field: description"] else []) ++
  (if t.document_type.isNone then ["Missing required field: document_type"] else []) ++
  (if t.version.isNone then ["Missing required field: version"] else []) ++
  (if t.fields.isNone then ["Missing required field: fields"] else []) ++
  (if t.output_format.isNone then ["Missing required field: output_format"] else [])

/-- The `template_id` character-set check: strip hyphens and underscores,
then `isalnum`; skipped for an absent or empty identifier. -/
def idErrors (t : PyTemplate) : List String :=
  let tid := t.template_id.getD ""
  if tid ≠ "" ∧ ¬ pyIsAlnum (tid.data.filter (fun c => c ≠ '-' ∧ c ≠ '_')) then
    [charsetErrMsg]
  else []

/-- Python `str.split('.')` (single-character separator). -/
def splitDotAux : List Char → List Char → List (List Char)
  | [], acc => [acc.reverse]
  | c :: rest, acc =>
    if c = '.' then acc.reverse :: splitDotAux rest []
    else splitDotAux rest (c :: acc)

def versionErrors (t : PyTemplate) : List String :=
  if t.version.getD "" ≠ "" then
    if (splitDotAux (t.version.getD "").data []).length ≠ 3 ∨
        ¬ (splitDotAux (t.version.getD "").data []).all
            (fun p => p ≠ [] ∧ p.all Char.isDigit)
    then [versionErrMsg] else []
  else []

def fieldBlockErrors (t : PyTemplate) : List String :=
  match t.fields with
  | none => []
  | some .nonArray => ["fields must be an array"]
  | some (.arr fs) => fs.enum.flatMap (fun p => validate_field p.2 p.1)

def outputFmtErrors (t : PyTemplate) : List String :=
  match t.output_format with
  | some o =>
    if o.csv_headers_present then [] else ["output_format must include csv_headers"]
  | none => ["output_format must include csv_headers"]

/-- `TemplateLoader.validate_template`: the error list, in the order the
source appends. -/
def validate_template (t : PyTemplate) : List String :=
  missingTopErrors t ++ idErrors t ++ versionErrors t ++
    fieldBlockErrors t ++ outputFmtErrors t

/-! ### Extraction validation (`Extractor.validate_extraction`)

The results DataFrame is modelled by its column list together with the
value of its single assembled row per column (`None`-or-value), plus the
row count; `validate_extraction` only ever reads `iloc[0]`.  The
`re.match` engine used for warning-level pattern checks is abstracted as
a boolean function. -/

structure VField where
  field_name : String
  required : Bool
  validation : Option String
deriving DecidableEq, Repr

structure VTemplate where
  fields : List VField
deriving DecidableEq, Repr

structure DFrame where
  cols : List (String × Option Val)
  nrows : Nat
deriving DecidableEq, Repr

structure VReport where
  valid : Bool
  errors : List String
  warnings : List String
  fields_extracted : Nat
  fields_total : Nat
deriving DecidableEq, Repr

def msgNotIn (f : String) : String :=
  "Required field '" ++ (f ++ "' not in results")

def msgEmpty (f : String) : String :=
  "Required field '" ++ (f ++ "' is empty")

/-- `results[field].iloc[0] if len(results) > 0 else None`. -/
def obsValue (df : DFrame) (name : String) : Option Val :=
  if 0 < df.nrows then (df.cols.lookup name).join else none

/-- The error contribution of one declared field. -/
def fieldErrs (df : DFrame) (f : VField) : List String :=
  if (df.cols.lookup f.field_name).isNone then
    if f.required then [msgNotIn f.field_name] else []
  else
    if f.required ∧ ((obsValue df f.field_name).isNone ∨
        obsValue df f.field_name = some (.s "")) then
      [msgEmpty f.field_name]
    else []

/-- `str(value)` as used for the warning-pattern check; the rendering of
floats is approximate (claims never consult warning text). -/
def pyStrVal : Val → String
  | .s x => x
  | .i n => toString n
  | .f x => pyFmtComma0f x
  | .b bv => if bv then "True" else "False"

/-- The warning contribution of one declared field (`re.match` abstracted
as `rematch`). -/
def fieldWarns (rematch : String → String → Bool) (df : DFrame)
    (f : VField) : List String :=
  if (df.cols.lookup f.field_name).isNone then []
  else
    let v := obsValue df f.field_name
    match f.validation, v with
    | some pat, some w =>
      if pat ≠ "" ∧ pyTruthyVal w ∧ ¬ rematch pat (pyStrVal w) then
        ["Field '" ++ (f.field_name ++ ("' value '" ++ (pyStrVal w ++
          ("' doesn't match pattern '" ++ (pat ++ "'")))))]
      else []
    | _, _ => []

def countExtracted (df : DFrame) : Nat :=
  if df.nrows = 0 then 0 else (df.cols.filter (fun kv => kv.2.isSome)).length

/--
`Extractor.validate_extraction` after the template lookup: `none` is the
template-not-found early return, otherwise one error/warning sweep over
the declared fields and the summary counters.
-/
def validate_extraction (rematch : String → String → Bool)
    (template : Option VTemplate) (df : DFrame) : VReport :=
  match template with
  | none =>
    { valid := false, errors := ["Template not found"], warnings := [],
      fields_extracted := 0, fields_total := 0 }
  | some t =>
    let errors := t.fields.flatMap (fieldErrs df)
    { valid := errors.isEmpty,
      errors := errors,
      warnings := t.fields.flatMap (fieldWarns rematch df),
      fields_extracted := countExtracted df,
      fields_total := t.fields.length }

/-! ## Shared helper lemmas -/

theorem dataAppend (s t : String) : (s ++ t).data = s.data ++ t.data := by
  cases s
  cases t
  rfl

theorem lookup_dictUpdate_self (d : List (String × α)) (k : String) (v : α) :
    (dictUpdate d k v).lookup k = some v := by
  induction d with
  | nil => simp [dictUpdate, List.lookup]
  | cons kv rest ih =>
    obtain ⟨k1, v1⟩ := kv
    by_cases h : k1 = k
    · subst h
      simp [dictUpdate, List.lookup]
    · have hb : (k == k1) = false := beq_eq_false_iff_ne.mpr (fun hh => h hh.symm)
      simp [dictUpdate, h, List.lookup, hb, ih]

theorem lookup_dictUpdate_ne (d : List (String × α)) (k k' : String) (v : α)
    (h : k' ≠ k) : (dictUpdate d k v).lookup k' = d.lookup k' := by
  have hb : (k' == k) = false := beq_eq_false_iff_ne.mpr h
  induction d with
  | nil => simp [dictUpdate, List.lookup, hb]
  | cons kv rest ih =>
    obtain ⟨k1, v1⟩ := kv
    by_cases hk : k1 = k
    · subst hk
      simp [dictUpdate, List.lookup, hb]
    · by_cases hk' : k' = k1
      · subst hk'
        simp [dictUpdate, hk, List.lookup]
      · have hb' : (k' == k1) = false := beq_eq_false_iff_ne.mpr hk'
        simp [dictUpdate, hk, List.lookup, hb', ih]

theorem mergeDOL_cons_some (acc : List (String × Option Val)) (k1 : String)
    (v : Val) (rest : List (String × Option Val)) :
    mergeDOL acc ((k1, some v) :: rest) = mergeDOL (dictUpdate acc k1 (some v)) rest := rfl

theorem mergeDOL_cons_none (acc : List (String × Option Val)) (k1 : String)
    (rest : List (String × Option Val)) :
    mergeDOL acc ((k1, none) :: rest) = mergeDOL acc rest := rfl

/-- A fold of non-matching updates leaves a key untouched. -/
theorem mergeDOL_lookup_of_not_mem (dol : List (String × Option Val))
    (k : String) (hk : k ∉ dol.map Prod.fst) :
    ∀ acc : List (String × Option Val),
      (mergeDOL acc dol).lookup k = acc.lookup k := by
  induction dol with
  | nil => intro acc; rfl
  | cons kv rest ih =>
    intro acc
    obtain ⟨k1, v1⟩ := kv
    have hk1 : k ≠ k1 := by
      intro h
      exact hk (by simp [h])
    have hk2 : k ∉ rest.map Prod.fst := by
      intro h
      exact hk (by simp [h])
    cases v1 with
    | some v =>
      rw [mergeDOL_cons_some, ih hk2, lookup_dictUpdate_ne _ _ _ _ hk1]
    | none =>
      rw [mergeDOL_cons_none]
      exact ih hk2 acc

theorem firstSome_forall {α β : Type} (f : α → Option β) (P : β → Prop)
    (hf : ∀ a b, f a = some b → P b) :
    ∀ (l : List α) (b : β), firstSome f l = some b → P b := by
  intro l
  induction l with
  | nil => intro b h; simp [firstSome] at h
  | cons x r ih =>
    intro b h
    simp only [firstSome] at h
    match hx : f x with
    | some b' =>
      rw [hx] at h
      exact hf x b (hx.trans (by injection h with h; rw [h]))
    | none =>
      rw [hx] at h
      exact ih b h

/-! ## C1. `coerce_value` and the never-throws invariant

The claim states that `coerce_value` never raises for any input string
and any `data_type` in the enum.  The `integer` branch falsifies it: for
the input `"inf"` the call `int(float('inf'))` raises `OverflowError`,
which the `except (ValueError, TypeError)` handler of `parse_integer`
does not catch.  This contradicts the documented contract of
`parse_integer` ("Integer value or None if parsing fails"), so the code,
not the claim, is wrong. -/

/-- C1: evaluating the code at the failing input: coercing the string
`"inf"` to the `integer` data type raises `OverflowError` instead of
returning null. -/
theorem c1_integer_overflow_escapes :
    coerce_value (some "inf") "integer" = .error .overflowError := by decide

/-! ## C2. Decoder-over-engine merge precedence -/

theorem mergeDOL_lookup_found :
    ∀ dol_data : List (String × Option Val), (dol_data.map Prod.fst).Nodup →
      ∀ (k : String) (v : Val), (k, some v) ∈ dol_data →
      ∀ text_data, (mergeDOL text_data dol_data).lookup k = some (some v) := by
  intro dol_data
  induction dol_data with
  | nil => intro _ k v hv; simp at hv
  | cons kv rest ih =>
    intro hnd k v hv text_data
    obtain ⟨k1, v1⟩ := kv
    have hndc : (k1 :: rest.map Prod.fst).Nodup := hnd
    have hnd0 := List.nodup_cons.mp hndc
    rcases List.mem_cons.mp hv with heq | hmem
    · have hk : k1 = k ∧ v1 = some v := by
        have h2 := heq
        simp at h2
        exact ⟨h2.1.symm, h2.2.symm⟩
      obtain ⟨hk1, hv1⟩ := hk
      subst hk1
      subst hv1
      rw [mergeDOL_cons_some]
      rw [mergeDOL_lookup_of_not_mem rest k1 hnd0.1, lookup_dictUpdate_self]
    · cases v1 with
      | some w => rw [mergeDOL_cons_some]; exact ih hnd0.2 k v hmem _
      | none => rw [mergeDOL_cons_none]; exact ih hnd0.2 k v hmem _

theorem mergeDOL_lookup_allnone :
    ∀ dol_data : List (String × Option Val), ∀ k : String,
      (∀ ov : Option Val, (k, ov) ∈ dol_data → ov = none) →
      ∀ text_data, (mergeDOL text_data dol_data).lookup k = text_data.lookup k := by
  intro dol_data
  induction dol_data with
  | nil => intro k _ text_data; rfl
  | cons kv rest ih =>
    intro k hall text_data
    obtain ⟨k1, v1⟩ := kv
    have hall2 : ∀ ov : Option Val, (k, ov) ∈ rest → ov = none :=
      fun ov hov => hall ov (List.mem_cons_of_mem _ hov)
    cases v1 with
    | some w =>
      have hk1 : k ≠ k1 := by
        intro h
        subst h
        have := hall (some w) (List.mem_cons_self _ _)
        simp at this
      rw [mergeDOL_cons_some, ih k hall2 _, lookup_dictUpdate_ne _ _ _ _ hk1]
    | none =>
      rw [mergeDOL_cons_none]
      exact ih k hall2 _

/-- C2: in the merged record of `Extractor.extract`, every field the
placeholder-decoder pass populated with a non-null value carries the
decoder value, and every field the decoder left out or set to null
carries the generic engine value. -/
theorem c2_merge_precedence (text_data dol_data : List (String × Option Val))
    (k : String) (hnd : (dol_data.map Prod.fst).Nodup) :
    (∀ v : Val, (k, some v) ∈ dol_data →
        (mergeDOL text_data dol_data).lookup k = some (some v)) ∧
    ((∀ ov : Option Val, (k, ov) ∈ dol_data → ov = none) →
        (mergeDOL text_data dol_data).lookup k = text_data.lookup k) :=
  ⟨fun v hv => mergeDOL_lookup_found dol_data hnd k v hv text_data,
   fun hall => mergeDOL_lookup_allnone dol_data k hall text_data⟩

/-- C2 witness: a concrete merge in which the decoder found `ein` (so its
value wins over the engine value) while it stored null for `plan_name`
(so the engine value survives). -/
theorem c2_merge_precedence_witness :
    (mergeDOL [("ein", some (.s "11-1111111")), ("plan_name", some (.s "Engine Plan"))]
        [("ein", some (.s "98-7654321")), ("plan_name", none)]).lookup "ein"
      = some (some (.s "98-7654321")) ∧
    (mergeDOL [("ein", some (.s "11-1111111")), ("plan_name", some (.s "Engine Plan"))]
        [("ein", some (.s "98-7654321")), ("plan_name", none)]).lookup "plan_name"
      = some (some (.s "Engine Plan")) := by
  refine ⟨(c2_merge_precedence _ _ "ein" (by decide)).1 _ (by decide), ?_⟩
  have h := (c2_merge_precedence
    [("ein", some (.s "11-1111111")), ("plan_name", some (.s "Engine Plan"))]
    [("ein", some (.s "98-7654321")), ("plan_name", none)] "plan_name" (by decide)).2
  rw [h (by intro ov hov; simp at hov; exact hov)]
  decide

/-! ## C3. Plan-year dates in the DOL pass

The claim says the DOL pattern pass stores the matched dates in ISO form
(`"2023-01-01"`).  The source stores the captured groups verbatim, i.e.
in `MM/DD/YYYY` form, and the merge then overrides even an ISO value the
generic engine produced for the same field.  Amended claim: for document
text containing `"beginning 01/01/2023 and ending 12/31/2023"`, the DOL
pass stores `plan_year_begin = "01/01/2023"` and
`plan_year_end = "12/31/2023"`, the captured text verbatim (MM/DD/YYYY),
not the ISO form. -/

/-- C3 counterexample: on exactly the text of the claim the DOL pass
stores `"01/01/2023"`, and the merged record keeps that value even when
the generic engine had stored the ISO form; `"01/01/2023"` is not
`"2023-01-01"`. -/
theorem c3_dol_dates_not_iso :
    dolPlanYearEntries "beginning 01/01/2023 and ending 12/31/2023"
      = [("plan_year_begin", some (.s "01/01/2023")),
         ("plan_year_end", some (.s "12/31/2023"))] ∧
    (mergeDOL [("plan_year_begin", some (.s "2023-01-01"))]
        (dolPlanYearEntries "beginning 01/01/2023 and ending 12/31/2023")).lookup
        "plan_year_begin" = some (some (.s "01/01/2023")) ∧
    ("01/01/2023" : String) ≠ "2023-01-01" := by
  refine ⟨by decide, by decide, by decide⟩

/-- C3 amended: whenever the plan-year pattern matches, the DOL pass
stores both captured `MM/DD/YYYY` groups verbatim, and after the merge of
`Extractor.extract` the final record carries those verbatim strings for
`plan_year_begin` and `plan_year_end`, whatever the generic engine
produced. -/
theorem c3_dol_dates_verbatim (full_text : String) (d1 d2 : List Char)
    (h : searchPlanYear full_text.data = some (d1, d2)) :
    dolPlanYearEntries full_text =
      [("plan_year_begin", some (.s ⟨d1⟩)), ("plan_year_end", some (.s ⟨d2⟩))] ∧
    ∀ text_data : List (String × Option Val),
      (mergeDOL text_data (dolPlanYearEntries full_text)).lookup "plan_year_begin"
          = some (some (.s ⟨d1⟩)) ∧
      (mergeDOL text_data (dolPlanYearEntries full_text)).lookup "plan_year_end"
          = some (some (.s ⟨d2⟩)) := by
  have he : dolPlanYearEntries full_text =
      [("plan_year_begin", some (.s ⟨d1⟩)), ("plan_year_end", some (.s ⟨d2⟩))] := by
    unfold dolPlanYearEntries
    rw [h]
  refine ⟨he, ?_⟩
  intro text_data
  rw [he]
  constructor
  · show (dictUpdate (dictUpdate text_data "plan_year_begin" (some (.s ⟨d1⟩)))
      "plan_year_end" (some (.s ⟨d2⟩))).lookup "plan_year_begin" = _
    rw [lookup_dictUpdate_ne _ _ _ _ (by decide), lookup_dictUpdate_self]
  · show (dictUpdate (dictUpdate text_data "plan_year_begin" (some (.s ⟨d1⟩)))
      "plan_year_end" (some (.s ⟨d2⟩))).lookup "plan_year_end" = _
    rw [lookup_dictUpdate_self]

/-- C3 witness: the amended statement instantiated on the concrete text
of the claim scenario. -/
theorem c3_dol_dates_verbatim_witness :
    dolPlanYearEntries "beginning 01/01/2023 and ending 12/31/2023" =
      [("plan_year_begin", some (.s "01/01/2023")),
       ("plan_year_end", some (.s "12/31/2023"))] := by
  exact (c3_dol_dates_verbatim "beginning 01/01/2023 and ending 12/31/2023"
    "01/01/2023".data "12/31/2023".data (by decide)).1

/-! ## C4 and C9. The financial placeholder decoder -/

theorem tryValueLen_window (rem : List Char) (lo hi : ℚ) (L : Nat)
    (f : PyFloat) (h : tryValueLen rem lo hi L = some f) :
    inWindow lo hi f = true := by
  unfold tryValueLen at h
  split at h
  · cases hp : pyParseFloatL (rem.take L) with
    | none => rw [hp] at h; simp at h
    | some g =>
      rw [hp] at h
      simp only [] at h
      split at h
      · rename_i hw
        cases h
        exact hw
      · simp at h
  · simp at h

theorem trySlice_window (clean : List Char) (sp L : Nat) (f : PyFloat)
    (h : trySlice clean sp L = some f) : inWindow 10000 500000000 f = true := by
  unfold trySlice at h
  split at h
  · cases hp : pyParseFloatL ((clean.drop sp).take L) with
    | none => rw [hp] at h; simp at h
    | some g =>
      rw [hp] at h
      simp only [] at h
      split at h
      · rename_i hw
        cases h
        exact hw
      · simp at h
  · simp at h

theorem tryMarker_window (clean mk : List Char) (f : PyFloat)
    (h : tryMarker clean mk = some f) : inWindow 100 500000000 f = true := by
  unfold tryMarker at h
  split at h
  · split at h
    · exact firstSome_forall _ (fun g => inWindow 100 500000000 g = true)
        (fun L g hg => tryValueLen_window _ _ _ _ _ hg) _ f h
    · simp at h
  · simp at h

theorem decodeStdMarker_window (clean : List Char) (f : PyFloat)
    (h : decodeStdMarker clean = some f) : inWindow 100 500000000 f = true := by
  unfold decodeStdMarker at h
  exact firstSome_forall _ (fun g => inWindow 100 500000000 g = true)
    (fun mk b hb => tryMarker_window clean mk b hb) _ f h

theorem decodeSlidingWindow_window (clean : List Char) (f : PyFloat)
    (h : decodeSlidingWindow clean = some f) :
    inWindow 10000 500000000 f = true := by
  unfold decodeSlidingWindow at h
  split at h
  · refine firstSome_forall _ (fun g => inWindow 10000 500000000 g = true) ?_ _ f h
    intro sp b hb
    exact firstSome_forall _ (fun g => inWindow 10000 500000000 g = true)
      (fun L g hg => trySlice_window _ _ _ _ hg) _ b hb
  · simp at h

theorem decodeDirect_window (clean : List Char) (f : PyFloat)
    (h : decodeDirect clean = some f) : inWindow 100 500000000 f = true := by
  unfold decodeDirect at h
  cases hp : pyParseFloatL (clean.filter (· ≠ ',')) with
  | none => rw [hp] at h; simp at h
  | some g =>
    rw [hp] at h
    simp only [] at h
    split at h
    · rename_i hw
      cases h
      exact hw
    · simp at h

theorem inWindow_widen (f : PyFloat) (h : inWindow 10000 500000000 f = true) :
    inWindow 100 500000000 f = true := by
  cases f with
  | finite q =>
    simp only [inWindow, decide_eq_true_eq] at h ⊢
    exact ⟨le_trans (by norm_num) h.1, h.2⟩
  | inf => simp [inWindow] at h
  | negInf => simp [inWindow] at h
  | nan => simp [inWindow] at h

/-- C9: whatever decoding strategy fires, a non-null result of the
financial placeholder decoder is a finite float inside the plausibility
window [100, 500000000]. -/
theorem c9_decoder_always_plausible (t : String) (v : PyFloat)
    (h : decode_dol_financial_value t = some v) :
    ∃ q : ℚ, v = .finite q ∧ (100 : ℚ) ≤ q ∧ q ≤ 500000000 := by
  have hw : inWindow 100 500000000 v = true := by
    unfold decode_dol_financial_value at h
    split at h
    · simp at h
    · unfold decodeStrategies at h
      cases h1 : decodeStdMarker (t.data.dropWhile (· = '-')) with
      | some w =>
        rw [h1] at h
        cases h
        exact decodeStdMarker_window _ _ h1
      | none =>
        rw [h1] at h
        cases h2 : decodeSlidingWindow (t.data.dropWhile (· = '-')) with
        | some w =>
          rw [h2] at h
          cases h
          exact inWindow_widen _ (decodeSlidingWindow_window _ _ h2)
        | none =>
          rw [h2] at h
          exact decodeDirect_window _ _ h
  cases v with
  | finite q =>
    refine ⟨q, rfl, ?_⟩
    simpa [inWindow, decide_eq_true_eq] using hw
  | inf => simp [inWindow] at hw
  | negInf => simp [inWindow] at hw
  | nan => simp [inWindow] at hw

/-- C9 witness: the decoder applied to a concrete token produces a value,
and the theorem places it in the window. -/
theorem c9_decoder_always_plausible_witness :
    ∃ q : ℚ, PyFloat.finite (mkRat 15369716 1) = .finite q ∧
      (100 : ℚ) ≤ q ∧ q ≤ 500000000 :=
  c9_decoder_always_plausible "-1234153697168399012345"
    (.finite (mkRat 15369716 1)) (by decide)

theorem decodeStdMarker_no_marker (clean : List Char)
    (h : ¬ ("1234".data.isPrefixOf clean = true)) :
    decodeStdMarker clean = none := by
  have hmk : ∀ mk : List Char, "1234".data <+: mk →
      (mk.isPrefixOf clean) = false := by
    intro mk hp4
    rw [Bool.eq_false_iff]
    intro hp
    exact h (List.isPrefixOf_iff_prefix.mpr
      (hp4.trans (List.isPrefixOf_iff_prefix.mp hp)))
  unfold decodeStdMarker
  simp [firstSome, tryMarker,
    hmk _ (by decide : "1234".data <+: "123456789".data),
    hmk _ (by decide : "1234".data <+: "12345678".data),
    hmk _ (by decide : "1234".data <+: "1234567".data)]

/-- C4: the decoder recovers a plausible financial value from the token
`"-1234567819004132"` (namely 19004132.0, inside [100, 500000000]); and a
token that starts with none of the placeholder markers, and whose only
remaining candidate — the direct numeric parse — misses the plausibility
window, decodes to null. -/
theorem c4_decoder_scenario :
    (decode_dol_financial_value "-1234567819004132"
        = some (.finite (mkRat 19004132 1)) ∧
      inWindow 100 500000000 (.finite (mkRat 19004132 1)) = true) ∧
    (∀ t : String,
      ¬ ("1234".data.isPrefixOf (t.data.dropWhile (· = '-')) = true) →
      (∀ f : PyFloat,
        pyParseFloatL ((t.data.dropWhile (· = '-')).filter (· ≠ ',')) = some f →
        inWindow 100 500000000 f = false) →
      decode_dol_financial_value t = none) := by
  refine ⟨⟨by decide, by decide⟩, ?_⟩
  intro t hmk hdir
  unfold decode_dol_financial_value
  split
  · rfl
  · unfold decodeStrategies
    rw [decodeStdMarker_no_marker _ hmk]
    have hsw : decodeSlidingWindow (t.data.dropWhile (· = '-')) = none := by
      unfold decodeSlidingWindow
      rw [if_neg]
      intro hand
      exact hmk hand.1
    rw [hsw]
    unfold decodeDirect
    cases hp : pyParseFloatL ((t.data.dropWhile (· = '-')).filter (· ≠ ',')) with
    | none => rfl
    | some g => simp [hdir g hp]

/-- C4 witness: the null branch of the theorem applied at the concrete
token `"ABCDEF"`, which carries no marker and fails the direct parse. -/
theorem c4_decoder_scenario_witness :
    decode_dol_financial_value "ABCDEF" = none := by
  refine c4_decoder_scenario.2 "ABCDEF" (by decide) ?_
  intro f hf
  rw [show pyParseFloatL (("ABCDEF".data.dropWhile (· = '-')).filter (· ≠ ','))
      = none from by decide] at hf
  cases hf

/-! ## C5. Pattern order in `_extract_with_regex` -/

/-- A pattern that contributes nothing to the loop: empty, no match, or
an empty captured group. -/
def patMiss (search : ReSearchFn) (text : String) (p : String) : Prop :=
  p = "" ∨ extract_first_match search text p = none ∨
    extract_first_match search text p = some ""

/-- A pattern slot that contributes nothing: absent, or present but a
miss. -/
def slotMiss (search : ReSearchFn) (text : String) (op : Option String) : Prop :=
  op = none ∨ ∃ p, op = some p ∧ patMiss search text p

theorem extract_first_match_empty_pat (search : ReSearchFn) (text : String) :
    extract_first_match search text "" = none := by
  unfold extract_first_match
  rw [if_pos (Or.inr rfl)]

theorem tryPatterns_cons_some (search : ReSearchFn) (text : String)
    (p : String) (rest : List (Option String)) :
    tryPatterns search text (some p :: rest) =
      if p = "" then tryPatterns search text rest
      else
        match extract_first_match search text p with
        | some v =>
          if v ≠ "" then some (clean_text v) else tryPatterns search text rest
        | none => tryPatterns search text rest := rfl

theorem tryPatterns_cons_skip (search : ReSearchFn) (text : String)
    (op : Option String) (rest : List (Option String))
    (h : slotMiss search text op) :
    tryPatterns search text (op :: rest) = tryPatterns search text rest := by
  rcases h with h | ⟨p, hp, hm⟩
  · subst h
    rfl
  · subst hp
    rw [tryPatterns_cons_some]
    by_cases hpe : p = ""
    · rw [if_pos hpe]
    · rw [if_neg hpe]
      rcases hm with he | hn | hs
      · exact absurd he hpe
      · rw [hn]
      · rw [hs]
        simp

theorem tryPatterns_all_miss (search : ReSearchFn) (text : String) :
    ∀ l : List (Option String), (∀ op ∈ l, slotMiss search text op) →
      tryPatterns search text l = none := by
  intro l
  induction l with
  | nil => intro _; rfl
  | cons op rest ih =>
    intro h
    rw [tryPatterns_cons_skip search text op rest (h op (List.mem_cons_self _ _))]
    exact ih (fun q hq => h q (List.mem_cons_of_mem _ hq))

theorem tryPatterns_cons_hit (search : ReSearchFn) (text : String)
    (p : String) (rest : List (Option String)) (v : String)
    (hv : extract_first_match search text p = some v) (hne : v ≠ "") :
    tryPatterns search text (some p :: rest) = some (clean_text v) := by
  have hpe : p ≠ "" := by
    intro h
    subst h
    rw [extract_first_match_empty_pat] at hv
    cases hv
  rw [tryPatterns_cons_some, if_neg hpe, hv]
  simp only []
  rw [if_pos hne]

theorem tryPatterns_fallback_order (search : ReSearchFn) (text : String) :
    ∀ (l : List String) (i : Nat) (hi : i < l.length) (v : String),
      (∀ j (hj : j < i), patMiss search text (l.get ⟨j, lt_trans hj hi⟩)) →
      extract_first_match search text (l.get ⟨i, hi⟩) = some v → v ≠ "" →
      tryPatterns search text (l.map some) = some (clean_text v) := by
  intro l
  induction l with
  | nil => intro i hi; simp at hi
  | cons q rest ih =>
    intro i hi v hbefore hhit hne
    cases i with
    | zero =>
      exact tryPatterns_cons_hit search text q _ v hhit hne
    | succ i' =>
      have hq : patMiss search text q := hbefore 0 (Nat.succ_pos i')
      rw [show (q :: rest).map some = some q :: rest.map some from rfl,
        tryPatterns_cons_skip search text (some q) _ (Or.inr ⟨q, rfl, hq⟩)]
      exact ih i' (Nat.lt_of_succ_lt_succ hi) v
        (fun j hj => hbefore (j + 1) (Nat.succ_lt_succ hj)) hhit hne

/-- C5: `_extract_with_regex` tries the primary pattern first and the
fallback patterns in declared order, returns the cleaned first non-empty
captured group (so the primary result wins whenever it produces one,
whatever the fallbacks would match), and falls back to the field default
when every pattern misses. -/
theorem c5_pattern_order (search : ReSearchFn) (text : String)
    (field : RegexField) :
    (∀ p v, field.regex_pattern = some p →
      extract_first_match search text p = some v → v ≠ "" →
      extract_with_regex search field text = some (clean_text v)) ∧
    (∀ i (hi : i < field.fallback_patterns.length) v,
      slotMiss search text field.regex_pattern →
      (∀ j (hj : j < i),
        patMiss search text (field.fallback_patterns.get ⟨j, lt_trans hj hi⟩)) →
      extract_first_match search text (field.fallback_patterns.get ⟨i, hi⟩) = some v →
      v ≠ "" →
      extract_with_regex search field text = some (clean_text v)) ∧
    (slotMiss search text field.regex_pattern →
      (∀ q ∈ field.fallback_patterns, patMiss search text q) →
      extract_with_regex search field text = field.default_value) := by
  refine ⟨?_, ?_, ?_⟩
  · intro p v hp hv hne
    unfold extract_with_regex
    rw [hp, tryPatterns_cons_hit search text p _ v hv hne]
  · intro i hi v hmiss hbefore hhit hne
    unfold extract_with_regex
    rw [tryPatterns_cons_skip search text _ _ hmiss,
      tryPatterns_fallback_order search text _ i hi v hbefore hhit hne]
  · intro hmiss hall
    unfold extract_with_regex
    rw [tryPatterns_cons_skip search text _ _ hmiss,
      tryPatterns_all_miss search text _ ?_]
    intro op hop
    rcases List.mem_map.mp hop with ⟨q, hq, rfl⟩
    exact Or.inr ⟨q, rfl, hall q hq⟩

/-- A concrete two-pattern regex engine for the C5 witness: the primary
pattern and one fallback both match the document, with different
captures. -/
def c5Search : ReSearchFn := fun pat _text =>
  if pat = "PRIMARY" then some [some "a  b"]
  else if pat = "FALLBACK" then some [some "zz"] else none

/-- C5 witness: with both the primary and the fallback matching, the
primary capture (whitespace-collapsed) is returned. -/
theorem c5_pattern_order_witness :
    extract_with_regex c5Search
      ⟨some "PRIMARY", ["FALLBACK"], some "dflt"⟩ "doc" = some "a b" := by
  have h := (c5_pattern_order c5Search "doc"
    ⟨some "PRIMARY", ["FALLBACK"], some "dflt"⟩).1 "PRIMARY" "a  b" rfl
    (by decide) (by decide)
  rw [h]
  decide

/-! ## C6. Vertical (line-code) output layout

The claim asserts that currency **and** decimal typed values are rendered
with thousands separators and no decimal places.  The source formats only
`currency` fields (`f"${value:,.0f}"`); a `decimal` field passes through
as the raw float.  Amended claim: the vertical layout has exactly one row
per template-declared field carrying line_code, field_name, display_name
and value; a missing (null) field renders as the empty string; currency
typed numeric values are rendered with thousands separators and no
decimal places; decimal typed values are left unformatted. -/

/-- C6 counterexample: a decimal-typed field with value 1234567.0 is
emitted as the raw float, not as a thousands-separated rendering. -/
theorem c6_decimal_not_formatted :
    formatOutputVertical [("net_gain", some (.f (.finite (mkRat 1234567 1))))]
        [⟨"net_gain", some "Net Gain", some "decimal", some "3c"⟩] "YYYY-MM-DD"
      = [⟨"3c", "net_gain", "Net Gain", .f (.finite (mkRat 1234567 1))⟩] ∧
    Val.f (.finite (mkRat 1234567 1)) ≠ .s "1,234,567" ∧
    Val.f (.finite (mkRat 1234567 1)) ≠ .s "$1,234,567" := by
  refine ⟨by decide, by decide, by decide⟩

theorem mkRow_spec (data : List (String × Option Val)) (dateFmt : String)
    (f : OutFieldDef) :
    (mkRow data dateFmt f).field_name = f.field_name ∧
    (mkRow data dateFmt f).line_code = f.line_code.getD "-" ∧
    (mkRow data dateFmt f).display_name = f.display_name.getD f.field_name ∧
    ((data.lookup f.field_name).join = none →
      (mkRow data dateFmt f).value = .s "") ∧
    (∀ x : PyFloat, f.data_type = some "currency" →
      (data.lookup f.field_name).join = some (.f x) →
      (mkRow data dateFmt f).value = .s ("$" ++ pyFmtComma0f x)) ∧
    (∀ v : Val, f.data_type = some "decimal" →
      (data.lookup f.field_name).join = some v →
      (mkRow data dateFmt f).value = v) := by
  refine ⟨rfl, rfl, rfl, ?_, ?_, ?_⟩
  · intro h
    unfold mkRow
    rw [h]
    rfl
  · intro x hc hv
    unfold mkRow
    rw [hv, hc]
    simp [valNum?]
  · intro v hd hv
    unfold mkRow
    rw [hv, hd]
    simp

/-- C6 amended: the vertical layout emits exactly one row per declared
field, in order, carrying the field line_code (dash when absent),
field_name, display_name (field_name when absent) and value; a missing or
null field renders as the empty string; a numeric value under a
currency-typed field is rendered as `$` plus the thousands-separated
integer rendering; a value under a decimal-typed field passes through
unformatted. -/
theorem c6_vertical_layout (data : List (String × Option Val))
    (fields : List OutFieldDef) (dateFmt : String) :
    (formatOutputVertical data fields dateFmt).length = fields.length ∧
    List.Forall₂ (fun (row : OutRow) (f : OutFieldDef) =>
      row.field_name = f.field_name ∧
      row.line_code = f.line_code.getD "-" ∧
      row.display_name = f.display_name.getD f.field_name ∧
      ((data.lookup f.field_name).join = none → row.value = .s "") ∧
      (∀ x : PyFloat, f.data_type = some "currency" →
        (data.lookup f.field_name).join = some (.f x) →
        row.value = .s ("$" ++ pyFmtComma0f x)) ∧
      (∀ v : Val, f.data_type = some "decimal" →
        (data.lookup f.field_name).join = some v → row.value = v))
      (formatOutputVertical data fields dateFmt) fields := by
  constructor
  · simp [formatOutputVertical]
  · induction fields with
    | nil => exact List.Forall₂.nil
    | cons f rest ih =>
      exact List.Forall₂.cons (mkRow_spec data dateFmt f) ih

/-- C6 witness: the amended layout statement instantiated on a concrete
currency field. -/
theorem c6_vertical_layout_witness :
    (formatOutputVertical [("amt", some (.f (.finite (mkRat 750000 1))))]
        [⟨"amt", none, some "currency", none⟩] "YYYY-MM-DD").length = 1 ∧
    (formatOutputVertical [("amt", some (.f (.finite (mkRat 750000 1))))]
        [⟨"amt", none, some "currency", none⟩] "YYYY-MM-DD").map OutRow.value
      = [.s "$750,000"] := by
  refine ⟨(c6_vertical_layout [("amt", some (.f (.finite (mkRat 750000 1))))]
    [⟨"amt", none, some "currency", none⟩] "YYYY-MM-DD").1, by decide⟩

/-! ## C7. Template identifier character-set validation

The claim says any character other than letters, digits and hyphens (for
example an underscore) draws the identifier error.  The validator strips
both hyphens **and** underscores before its `isalnum()` test, so
underscores are silently accepted.  Amended claim: the identifier error
is emitted exactly when the identifier, with hyphens and underscores
removed, fails `isalnum()` — so identifiers containing a character
outside letters/digits/hyphen/underscore draw the error, and identifiers
made of letters, digits, hyphens and underscores with at least one
letter or digit draw no error (in particular an underscore alone never
triggers it, and an identifier of only hyphens does). -/

theorem mkFieldErr_head (i : Nat) (m : String) :
    (mkFieldErr i m).data.head? = some 'F' := by
  unfold mkFieldErr
  rw [dataAppend]
  rw [show ("Field " : String).data = 'F' :: "ield ".data from rfl]
  rfl

theorem mkFieldErr_ne_charset (i : Nat) (m : String) :
    mkFieldErr i m ≠ charsetErrMsg := by
  intro h
  have h1 : (mkFieldErr i m).data.head? = charsetErrMsg.data.head? := by rw [h]
  rw [mkFieldErr_head] at h1
  rw [show charsetErrMsg.data.head? = some 't' from rfl] at h1
  simp at h1

theorem not_mem_fieldErr_block (i : Nat) (m : String) (c : Prop)
    [Decidable c] : charsetErrMsg ∉ (if c then [mkFieldErr i m] else []) := by
  split
  · rw [List.mem_singleton]
    exact fun hh => mkFieldErr_ne_charset i m hh.symm
  · simp

theorem charset_not_in_validate_field (f : TField) (i : Nat) :
    charsetErrMsg ∉ validate_field f i := by
  unfold validate_field
  intro h
  simp only [List.mem_append] at h
  rcases h with ((((((((h | h) | h) | h) | h) | h) | h) | h) | h) | h
  all_goals exact absurd h (not_mem_fieldErr_block _ _ _)

theorem not_mem_str_block (c : Prop) [Decidable c] (x : String)
    (hne : charsetErrMsg ≠ x) : charsetErrMsg ∉ (if c then [x] else []) := by
  split
  · rw [List.mem_singleton]
    exact hne
  · simp

theorem charset_not_in_missingTop (t : PyTemplate) :
    charsetErrMsg ∉ missingTopErrors t := by
  unfold missingTopErrors
  intro h
  simp only [List.mem_append] at h
  rcases h with (((((h | h) | h) | h) | h) | h) | h
  all_goals exact absurd h (not_mem_str_block _ _ (by decide))

theorem charset_not_in_version (t : PyTemplate) :
    charsetErrMsg ∉ versionErrors t := by
  unfold versionErrors
  intro h
  split at h
  · split at h
    · rw [List.mem_singleton] at h
      exact absurd h (by decide)
    · cases h
  · cases h

theorem charset_not_in_fieldBlock (t : PyTemplate) :
    charsetErrMsg ∉ fieldBlockErrors t := by
  unfold fieldBlockErrors
  intro h
  match ht : t.fields with
  | none => rw [ht] at h; cases h
  | some .nonArray =>
    rw [ht] at h
    exact absurd h (by decide)
  | some (.arr fs) =>
    rw [ht] at h
    rcases List.mem_flatMap.mp h with ⟨p, _, hp⟩
    exact charset_not_in_validate_field p.2 p.1 hp

theorem charset_not_in_outputFmt (t : PyTemplate) :
    charsetErrMsg ∉ outputFmtErrors t := by
  unfold outputFmtErrors
  cases t.output_format with
  | none => decide
  | some o =>
    show charsetErrMsg ∉
      if o.csv_headers_present = true then []
      else ["output_format must include csv_headers"]
    cases h : o.csv_headers_present with
    | true => simp [h]
    | false => decide

theorem charset_mem_validate_iff (t : PyTemplate) :
    charsetErrMsg ∈ validate_template t ↔ charsetErrMsg ∈ idErrors t := by
  unfold validate_template
  simp only [List.mem_append]
  constructor
  · intro h
    rcases h with (((h | h) | h) | h) | h
    · exact absurd h (charset_not_in_missingTop t)
    · exact h
    · exact absurd h (charset_not_in_version t)
    · exact absurd h (charset_not_in_fieldBlock t)
    · exact absurd h (charset_not_in_outputFmt t)
  · intro h
    exact Or.inl (Or.inl (Or.inl (Or.inr h)))

/-- C7 counterexample: an otherwise well-formed template whose identifier
contains an underscore (a character that is not a letter, digit or
hyphen) passes validation with no error at all, against the claim that
the identifier character-set error must be reported. -/
theorem c7_underscore_accepted :
    ('_' ∈ ("my_template" : String).data ∧ ('_' : Char).isAlphanum = false ∧
      ('_' : Char) ≠ '-') ∧
    validate_template
      ⟨some "my_template", some "My", some "d", some "t", some "1.0.0",
        some (.arr []), some ⟨true⟩⟩ = [] ∧
    charsetErrMsg ∉ validate_template
      ⟨some "my_template", some "My", some "d", some "t", some "1.0.0",
        some (.arr []), some ⟨true⟩⟩ := by
  refine ⟨by decide, by decide, by decide⟩

theorem idErrors_char (t : PyTemplate) (tid : String)
    (h : t.template_id = some tid) :
    idErrors t =
      if tid ≠ "" ∧ ¬ (pyIsAlnum (tid.data.filter (fun c => c ≠ '-' ∧ c ≠ '_')) = true)
      then [charsetErrMsg] else [] := by
  unfold idErrors
  rw [h]
  rfl

/-- C7 amended: the identifier character-set error appears exactly as the
stripped-identifier `isalnum` test dictates: it is present whenever the
identifier holds a character outside letters, digits, hyphens and
underscores, and absent whenever the identifier holds at least one
letter-or-digit and nothing but letters, digits, hyphens and
underscores. -/
theorem c7_identifier_charset (t : PyTemplate) (tid : String)
    (h : t.template_id = some tid) :
    ((∃ c ∈ tid.data, ¬ (c.isAlphanum = true ∨ c = '-' ∨ c = '_')) →
      charsetErrMsg ∈ validate_template t) ∧
    (((∃ c ∈ tid.data, c.isAlphanum = true) ∧
        ∀ c ∈ tid.data, c.isAlphanum = true ∨ c = '-' ∨ c = '_') →
      charsetErrMsg ∉ validate_template t) := by
  constructor
  · intro ⟨c0, hc0, hbad⟩
    rw [charset_mem_validate_iff, idErrors_char t tid h]
    have hne : tid ≠ "" := by
      intro he
      rw [he] at hc0
      cases hc0
    have hc0h : c0 ≠ '-' := fun hh => hbad (Or.inr (Or.inl hh))
    have hc0u : c0 ≠ '_' := fun hh => hbad (Or.inr (Or.inr hh))
    have hca : c0.isAlphanum = false := by
      cases hb : c0.isAlphanum
      · rfl
      · exact absurd (Or.inl hb) hbad
    have hfil : c0 ∈ tid.data.filter (fun c => c ≠ '-' ∧ c ≠ '_') := by
      rw [List.mem_filter]
      exact ⟨hc0, by simp [hc0h, hc0u]⟩
    have hnal : pyIsAlnum (tid.data.filter (fun c => c ≠ '-' ∧ c ≠ '_')) = false := by
      unfold pyIsAlnum
      apply decide_eq_false
      intro hfa
      have := List.all_eq_true.mp hfa.2 c0 hfil
      rw [hca] at this
      cases this
    rw [if_pos ⟨hne, by rw [hnal]; exact Bool.false_ne_true⟩]
    exact List.mem_singleton.mpr rfl
  · intro ⟨⟨c1, hc1, hal⟩, hall⟩
    rw [charset_mem_validate_iff, idErrors_char t tid h]
    have hdash : ('-' : Char).isAlphanum = false := by decide
    have hund : ('_' : Char).isAlphanum = false := by decide
    have hc1d : c1 ≠ '-' := by
      intro he
      rw [he, hdash] at hal
      cases hal
    have hc1u : c1 ≠ '_' := by
      intro he
      rw [he, hund] at hal
      cases hal
    have hfil : c1 ∈ tid.data.filter (fun c => c ≠ '-' ∧ c ≠ '_') := by
      rw [List.mem_filter]
      exact ⟨hc1, by simp [hc1d, hc1u]⟩
    have hok : pyIsAlnum (tid.data.filter (fun c => c ≠ '-' ∧ c ≠ '_')) = true := by
      unfold pyIsAlnum
      apply decide_eq_true
      refine ⟨List.ne_nil_of_mem hfil, ?_⟩
      rw [List.all_eq_true]
      intro c hc
      rw [List.mem_filter] at hc
      have hprop : c ≠ '-' ∧ c ≠ '_' := by simpa using hc.2
      rcases hall c hc.1 with hx | hx | hx
      · exact hx
      · exact absurd hx hprop.1
      · exact absurd hx hprop.2
    rw [if_neg]
    · simp
    · intro hcontra
      rw [hok] at hcontra
      exact hcontra.2 rfl

/-- C7 witness: the amended statement applied to an identifier with a
space and an exclamation mark draws the error, and to a hyphenated
alphanumeric identifier draws none. -/
theorem c7_identifier_charset_witness :
    charsetErrMsg ∈ validate_template
      ⟨some "bad id!", some "My", some "d", some "t", some "1.0.0",
        some (.arr []), some ⟨true⟩⟩ ∧
    charsetErrMsg ∉ validate_template
      ⟨some "form-5500", some "My", some "d", some "t", some "1.0.0",
        some (.arr []), some ⟨true⟩⟩ := by
  constructor
  · exact (c7_identifier_charset _ "bad id!" rfl).1 ⟨' ', by decide, by decide⟩
  · exact (c7_identifier_charset _ "form-5500" rfl).2
      ⟨⟨'f', by decide, by decide⟩, by decide⟩

/-! ## C8. Required-field validation -/

theorem msgNotIn_inj (a b : String) (h : msgNotIn a = msgNotIn b) : a = b := by
  have hd := congrArg String.data h
  unfold msgNotIn at hd
  rw [dataAppend, dataAppend, dataAppend, dataAppend] at hd
  have h1 := List.append_cancel_left hd
  have h2 := List.append_cancel_right h1
  exact String.ext h2

theorem msgEmpty_inj (a b : String) (h : msgEmpty a = msgEmpty b) : a = b := by
  have hd := congrArg String.data h
  unfold msgEmpty at hd
  rw [dataAppend, dataAppend, dataAppend, dataAppend] at hd
  have h1 := List.append_cancel_left hd
  have h2 := List.append_cancel_right h1
  exact String.ext h2

theorem msgNotIn_ne_msgEmpty (a b : String) : msgNotIn a ≠ msgEmpty b := by
  intro h
  have hd := congrArg String.data h
  unfold msgNotIn msgEmpty at hd
  rw [dataAppend, dataAppend, dataAppend, dataAppend] at hd
  have h1 := List.append_cancel_left hd
  have h2 := congrArg List.getLast? h1
  rw [List.getLast?_append, List.getLast?_append] at h2
  rw [show ("' not in results" : String).data.getLast? = some 's' from by decide,
    show ("' is empty" : String).data.getLast? = some 'y' from by decide] at h2
  simp [Option.or] at h2

/-- The predicate "this error names field `fn`": it is one of the two
messages the validator can emit for `fn`. -/
def c8Pred (fn : String) : String → Bool :=
  fun e => e == msgNotIn fn || e == msgEmpty fn

theorem fieldErrs_countP_other (df : DFrame) (g : VField) (fn : String)
    (hne : g.field_name ≠ fn) :
    (fieldErrs df g).countP (c8Pred fn) = 0 := by
  have h1 : (msgNotIn g.field_name == msgNotIn fn) = false :=
    beq_eq_false_iff_ne.mpr (fun h => hne (msgNotIn_inj _ _ h))
  have h2 : (msgNotIn g.field_name == msgEmpty fn) = false :=
    beq_eq_false_iff_ne.mpr (msgNotIn_ne_msgEmpty _ _)
  have h3 : (msgEmpty g.field_name == msgNotIn fn) = false :=
    beq_eq_false_iff_ne.mpr (fun h => msgNotIn_ne_msgEmpty fn g.field_name h.symm)
  have h4 : (msgEmpty g.field_name == msgEmpty fn) = false :=
    beq_eq_false_iff_ne.mpr (fun h => hne (msgEmpty_inj _ _ h))
  unfold fieldErrs
  split
  · split
    · simp [List.countP_cons, c8Pred, h1, h2]
    · simp
  · split
    · simp [List.countP_cons, c8Pred, h3, h4]
    · simp

/-- "Absent from the record or empty", as the validator observes it. -/
def absentOrEmpty (df : DFrame) (name : String) : Prop :=
  (df.cols.lookup name).isNone = true ∨ (obsValue df name).isNone = true ∨
    obsValue df name = some (.s "")

theorem fieldErrs_countP_self (df : DFrame) (f : VField)
    (hreq : f.required = true) (habs : absentOrEmpty df f.field_name) :
    (fieldErrs df f).countP (c8Pred f.field_name) = 1 := by
  have hp1 : c8Pred f.field_name (msgNotIn f.field_name) = true := by
    simp [c8Pred]
  have hp2 : c8Pred f.field_name (msgEmpty f.field_name) = true := by
    simp [c8Pred]
  unfold fieldErrs
  by_cases hl : (df.cols.lookup f.field_name).isNone = true
  · rw [if_pos hl, if_pos hreq]
    simp [List.countP_cons, hp1]
  · rw [if_neg hl]
    have hv : (obsValue df f.field_name).isNone = true ∨
        obsValue df f.field_name = some (.s "") := by
      rcases habs with h | h | h
      · exact absurd h hl
      · exact Or.inl h
      · exact Or.inr h
    rw [if_pos ⟨hreq, hv⟩]
    simp [List.countP_cons, hp2]

theorem countP_flatMap_zero (df : DFrame) (fn : String) :
    ∀ rest : List VField, (∀ g ∈ rest, g.field_name ≠ fn) →
      (rest.flatMap (fieldErrs df)).countP (c8Pred fn) = 0 := by
  intro rest
  induction rest with
  | nil => intro _; rfl
  | cons g tail ih =>
    intro h
    rw [List.flatMap_cons, List.countP_append,
      fieldErrs_countP_other df g fn (h g (List.mem_cons_self _ _)),
      ih (fun q hq => h q (List.mem_cons_of_mem _ hq))]

theorem countP_flatMap_one (df : DFrame) (f : VField)
    (hreq : f.required = true) (habs : absentOrEmpty df f.field_name) :
    ∀ L : List VField, (L.map VField.field_name).Nodup → f ∈ L →
      (L.flatMap (fieldErrs df)).countP (c8Pred f.field_name) = 1 := by
  intro L
  induction L with
  | nil => intro _ hf; simp at hf
  | cons g rest ih =>
    intro hnd hf
    have hndc : (g.field_name :: rest.map VField.field_name).Nodup := hnd
    have hnd0 := List.nodup_cons.mp hndc
    rw [List.flatMap_cons, List.countP_append]
    rcases List.mem_cons.mp hf with heq | hmem
    · subst heq
      rw [fieldErrs_countP_self df f hreq habs,
        countP_flatMap_zero df f.field_name rest ?_]
      intro q hq hqe
      exact hnd0.1 (hqe ▸ List.mem_map.mpr ⟨q, hq, rfl⟩)
    · have hgne : g.field_name ≠ f.field_name := by
        intro he
        exact hnd0.1 (he ▸ List.mem_map.mpr ⟨f, hmem, rfl⟩)
      rw [fieldErrs_countP_other df g f.field_name hgne, ih hnd0.2 hmem]

/-- C8: for a required declared field that is absent from the assembled
record or empty, `validate_extraction` reports exactly one error naming
that field, the report is invalid, and (at this template and record)
validity holds exactly when the error list is empty. -/
theorem c8_required_field_errors (rematch : String → String → Bool)
    (t : VTemplate) (df : DFrame) (f : VField)
    (hnd : (t.fields.map VField.field_name).Nodup) (hf : f ∈ t.fields)
    (hreq : f.required = true) (habs : absentOrEmpty df f.field_name) :
    (validate_extraction rematch (some t) df).errors.countP
        (c8Pred f.field_name) = 1 ∧
    (validate_extraction rematch (some t) df).valid = false ∧
    ((validate_extraction rematch (some t) df).valid = true ↔
      (validate_extraction rematch (some t) df).errors = []) := by
  have herr : (validate_extraction rematch (some t) df).errors
      = t.fields.flatMap (fieldErrs df) := rfl
  have hval : (validate_extraction rematch (some t) df).valid
      = (t.fields.flatMap (fieldErrs df)).isEmpty := rfl
  have hcount := countP_flatMap_one df f hreq habs t.fields hnd hf
  have hne : t.fields.flatMap (fieldErrs df) ≠ [] := by
    intro he
    rw [he] at hcount
    simp [List.countP, List.countP.go] at hcount
  refine ⟨herr ▸ hcount, ?_, ?_⟩
  · rw [hval]
    rw [Bool.eq_false_iff]
    intro hemp
    exact hne (List.isEmpty_iff.mp hemp)
  · rw [hval, herr]
    exact List.isEmpty_iff

/-- C8 witness: a template declaring one required field `ein` validated
against a record with no columns yields exactly the one error naming
`ein` and an invalid report. -/
theorem c8_required_field_errors_witness :
    (validate_extraction (fun _ _ => true) (some ⟨[⟨"ein", true, none⟩]⟩)
        ⟨[], 1⟩).errors.countP (c8Pred "ein") = 1 ∧
    (validate_extraction (fun _ _ => true) (some ⟨[⟨"ein", true, none⟩]⟩)
        ⟨[], 1⟩).valid = false ∧
    ((validate_extraction (fun _ _ => true) (some ⟨[⟨"ein", true, none⟩]⟩)
        ⟨[], 1⟩).valid = true ↔
      (validate_extraction (fun _ _ => true) (some ⟨[⟨"ein", true, none⟩]⟩)
        ⟨[], 1⟩).errors = []) :=
  c8_required_field_errors (fun _ _ => true) ⟨[⟨"ein", true, none⟩]⟩ ⟨[], 1⟩
    ⟨"ein", true, none⟩ (by decide) (by decide) rfl (Or.inl rfl)

/-! ## C10. Totality of `format_date` on non-empty input -/

/-- C10: `format_date` never returns null for a non-empty input: a string
that parses under `%Y-%m-%d` is rendered in the requested layout, an
unknown layout name falls back to the ISO rendering, and a string that
does not parse is returned unchanged. -/
theorem c10_format_date_total (s fmt : String) (hs : s ≠ "") :
    (∃ out, format_date s fmt = some out) ∧
    (runYMD '-' s.data = none → format_date s fmt = some s) ∧
    (∀ y m d, runYMD '-' s.data = some (y, m, d) →
      format_date s fmt = some (renderDate (formatMapLookup fmt) y m d)) ∧
    (fmt ∉ ["YYYY-MM-DD", "MM/DD/YYYY", "DD/MM/YYYY", "YYYY/MM/DD",
        "MM-DD-YYYY", "DD-MM-YYYY"] → formatMapLookup fmt = .iso) := by
  refine ⟨?_, ?_, ?_, ?_⟩
  · unfold format_date
    rw [if_neg hs]
    cases hp : runYMD '-' s.data with
    | none => exact ⟨s, rfl⟩
    | some ymd =>
      obtain ⟨y, m, d⟩ := ymd
      exact ⟨renderDate (formatMapLookup fmt) y m d, rfl⟩
  · intro hp
    unfold format_date
    rw [if_neg hs, hp]
  · intro y m d hp
    unfold format_date
    rw [if_neg hs, hp]
  · intro hfmt
    unfold formatMapLookup
    rw [if_neg (by intro h; exact hfmt (by rw [h]; decide)),
      if_neg (by intro h; exact hfmt (by rw [h]; decide)),
      if_neg (by intro h; exact hfmt (by rw [h]; decide)),
      if_neg (by intro h; exact hfmt (by rw [h]; decide)),
      if_neg (by intro h; exact hfmt (by rw [h]; decide)),
      if_neg (by intro h; exact hfmt (by rw [h]; decide))]

/-- C10 witness: a non-date input under an unknown layout name comes back
unchanged and non-null. -/
theorem c10_format_date_total_witness :
    format_date "not a date" "WEIRD-LAYOUT" = some "not a date" :=
  (c10_format_date_total "not a date" "WEIRD-LAYOUT" (by decide)).2.1 (by decide)

end OpenExtract
